import Mathlib

/-!
Verification of the stock-monitoring repository: a shallow embedding of
`stock_monitor.py`, `price_monitor.py`, `run.py` and `config.py` (prices as
exact rationals, Python exceptions as explicit error values, `self` state
passed explicitly), followed by theorems settling the specification claims.
-/

namespace StockMonitoring

/-- Python exception values that the embedded code can raise. -/
inductive PyError where
  | zeroDivisionError
  | attributeError (name : String)
  | indexError
  | providerError (symbol : String)
  deriving Repr, DecidableEq

/-- Python `dict` assignment `d[k] = v`: replace the value at an existing
key in place, otherwise append the new binding at the end. -/
def dictInsert {α : Type} (l : List (String × α)) (k : String) (v : α) :
    List (String × α) :=
  match l with
  | [] => [(k, v)]
  | (k0, v0) :: rest =>
      if k0 = k then (k, v) :: rest else (k0, v0) :: dictInsert rest k v

/-- One entry of `company["price_alerts"]["conditions"]`.  The code reads only
`threshold_percent`; `direction` is carried for comparison with the spec's
direction-matching rule, which the code never consults. -/
structure Condition where
  threshold_percent : ℚ
  direction : String
  deriving Repr, DecidableEq

/-- `company["price_alerts"]`. -/
structure PriceAlerts where
  enabled : Bool
  conditions : List Condition
  deriving Repr, DecidableEq

/-- One company entry of the configuration. -/
structure Company where
  symbol : String
  price_alerts : PriceAlerts
  deriving Repr, DecidableEq

/-- The two keys of a per-symbol price dict that `process_price_updates`
reads: `data["price"]` for the current observation and
`cached["previous_close"]` for the stored reference.  Other keys of the dict
(volume, timestamp, ...) are never accessed by the embedded code. -/
structure PMData where
  price : ℚ
  previous_close : ℚ
  deriving Repr, DecidableEq

/-- An alert record appended to `alerts_to_send` (the embedded fields are the
ones the claims are about: the symbol and the computed percent change). -/
structure Alert where
  symbol : String
  change : ℚ
  deriving Repr, DecidableEq

/-- The mutable `self` state of `StockMonitor` that `process_price_updates`
touches: `self.cache` (symbol -> last stored price dict) and
`self.alert_cooldown` (key "symbol:kind" -> time of last alert, in whole
seconds). -/
structure SMState where
  cache : List (String × PMData)
  alert_cooldown : List (String × Int)
  deriving Repr, DecidableEq

/-- `StockMonitor.should_send_alert`: cooldown is 900 s for kind "price",
1800 s otherwise; the elapsed time is taken through Python's
`timedelta.seconds`, which keeps only the sub-day component, i.e.
`(now - last) mod 86400`. -/
def should_send_alert (s : SMState) (symbol alert_type : String) (now : Int) :
    Bool :=
  let key := symbol ++ ":" ++ alert_type
  match s.alert_cooldown.lookup key with
  | none => true
  | some last_alert =>
      let cooldown : Int := if alert_type = "price" then 900 else 1800
      decide ((now - last_alert) % 86400 > cooldown)

/-- `StockMonitor.set_alert_cooldown`: record `now` under "symbol:kind". -/
def set_alert_cooldown (s : SMState) (symbol alert_type : String) (now : Int) :
    SMState :=
  { s with alert_cooldown :=
      dictInsert s.alert_cooldown (symbol ++ ":" ++ alert_type) now }

/-- The body of the `for symbol, data in stock_data.items()` loop of
`StockMonitor.process_price_updates`, for one symbol.  Returns the updated
state, the updated `alerts_to_send` accumulator, and the exception raised, if
any.  Exceptions this body can raise: `ZeroDivisionError` when the cached
`previous_close` is 0 (the division `(data["price"] - cached["previous_close"])
/ cached["previous_close"]` is unguarded), and `IndexError` when
`conditions[0]` is taken on an empty list. -/
def processSymbolStep (get_company_config : String → Option Company)
    (now : Int) (s : SMState) (alerts : List Alert) (symbol : String)
    (data : PMData) : SMState × List Alert × Option PyError :=
  match get_company_config symbol with
  | none => (s, alerts, none)
  | some company =>
      if company.price_alerts.enabled = false then (s, alerts, none)
      else
        match s.cache.lookup symbol with
        | none =>
            ({ s with cache := dictInsert s.cache symbol data }, alerts, none)
        | some cached =>
            if cached.previous_close = 0 then
              (s, alerts, some PyError.zeroDivisionError)
            else
              let change_percent :=
                (data.price - cached.previous_close) / cached.previous_close
                  * 100
              match company.price_alerts.conditions.head? with
              | none => (s, alerts, some PyError.indexError)
              | some cond =>
                  let threshold := cond.threshold_percent
                  let step :=
                    if |change_percent| ≥ threshold then
                      if should_send_alert s symbol "price" now then
                        (set_alert_cooldown s symbol "price" now,
                         alerts ++ [⟨symbol, change_percent⟩])
                      else (s, alerts)
                    else (s, alerts)
                  ({ step.1 with cache := dictInsert step.1.cache symbol data },
                   step.2, none)

/-- The `for` loop of `process_price_updates` over all entries of
`stock_data`.  An exception aborts the loop at the raising symbol; mutations
made to `self` before that point persist. -/
def processLoop (get_company_config : String → Option Company) (now : Int)
    (s : SMState) (alerts : List Alert) (stock_data : List (String × PMData)) :
    SMState × List Alert × Option PyError :=
  match stock_data with
  | [] => (s, alerts, none)
  | (symbol, data) :: rest =>
      let r := processSymbolStep get_company_config now s alerts symbol data
      match r.2.2 with
      | some e => (r.1, r.2.1, some e)
      | none => processLoop get_company_config now r.1 r.2.1 rest

/-- `StockMonitor.process_price_updates`: runs the per-symbol loop and then
hands `alerts_to_send` to `send_alerts_batch`.  The returned alert list is
what gets dispatched: on an exception, `send_alerts_batch` is never reached,
so nothing is dispatched even if alerts had accumulated. -/
def process_price_updates (get_company_config : String → Option Company)
    (stock_data : List (String × PMData)) (now : Int) (s : SMState) :
    SMState × List Alert × Option PyError :=
  let r := processLoop get_company_config now s [] stock_data
  match r.2.2 with
  | some e => (r.1, [], some e)
  | none => (r.1, r.2.1, none)

/-- The market-data provider as seen by `PriceMonitor` (the `AlphaVantageApi`
collaborator): each call either returns a value or raises.
`get_yesterday_close` returns `none` when yesterday's date is absent from the
returned daily series (the source function then falls off its loop and
returns Python `None`). -/
structure Provider where
  get_current_trading_price : String → Except PyError ℚ
  get_yesterday_close : String → Except PyError (Option ℚ)

/-- The mutable `self` state of `PriceMonitor`: `self.previous_closes`
(symbol -> stored close, which may be the `None` returned by the provider)
and `self.previous_close_date`. -/
structure PriceMonitorState where
  previous_closes : List (String × Option ℚ)
  previous_close_date : Option String
  deriving Repr, DecidableEq

/-- `self.previous_closes.get(symbol)`: `None` either when the key is absent
or when the stored value itself is `None`. -/
def dictGetClose (prevs : List (String × Option ℚ)) (symbol : String) :
    Option ℚ :=
  (prevs.lookup symbol).join

/-- The `for company in companies` loop of
`PriceMonitor.ensure_previous_closes`: fetch yesterday's close for each
symbol and store it.  Returns the updated state, the number of provider
calls issued, and the exception, if any.  A raising fetch aborts the loop;
entries stored before it persist. -/
def ensureLoop (p : Provider) (companies : List Company)
    (s : PriceMonitorState) : PriceMonitorState × Nat × Option PyError :=
  match companies with
  | [] => (s, 0, none)
  | c :: rest =>
      match p.get_yesterday_close c.symbol with
      | Except.error e => (s, 1, some e)
      | Except.ok close =>
          let s1 := { s with
            previous_closes := dictInsert s.previous_closes c.symbol close }
          let r := ensureLoop p rest s1
          (r.1, r.2.1 + 1, r.2.2)

/-- `PriceMonitor.ensure_previous_closes`: an early return when the stored
date already equals `today`; otherwise refresh every symbol and record
`today` — but only after the whole loop succeeded, since an exception
propagates before the date assignment is reached. -/
def ensure_previous_closes (p : Provider) (companies : List Company)
    (today : String) (s : PriceMonitorState) :
    PriceMonitorState × Nat × Option PyError :=
  if s.previous_close_date = some today then (s, 0, none)
  else
    match ensureLoop p companies s with
    | (s1, n, some e) => (s1, n, some e)
    | (s1, n, none) => ({ s1 with previous_close_date := some today }, n, none)

/-- The `for company in companies` loop of
`PriceMonitor.poll_prices_for_companies`.  Per company: fetch the current
price (counted as one provider call; a raise aborts the loop), skip the
symbol when its stored previous close is `None`, compute the percent change
(`ZeroDivisionError` when the stored close is 0 — unguarded), print the
symbol, then call `self.check_alerts(...)`.  `PriceMonitor` defines no
method named `check_alerts`, so that call raises `AttributeError`.  Returns
(provider calls issued, symbols printed, exception if any). -/
def pollLoop (p : Provider) (s : PriceMonitorState) (companies : List Company) :
    Nat × List String × Option PyError :=
  match companies with
  | [] => (0, [], none)
  | c :: rest =>
      match p.get_current_trading_price c.symbol with
      | Except.error e => (1, [], some e)
      | Except.ok _current_price =>
          match dictGetClose s.previous_closes c.symbol with
          | none =>
              let r := pollLoop p s rest
              (r.1 + 1, r.2.1, r.2.2)
          | some prev_close =>
              if prev_close = 0 then (1, [], some PyError.zeroDivisionError)
              else (1, [c.symbol], some (PyError.attributeError "check_alerts"))

/-- `PriceMonitor.get_active_markets`: the commented-out `is_market_open`
check is never consulted; a market is "active" exactly when its name is
`"us"`. -/
def get_active_markets (marketNames : List String) : List String :=
  marketNames.filter (fun m => m = "us")

/-- `StockMonitor.check_volatility`: a placeholder that always returns
`False`. -/
def check_volatility : Bool := false

/-- `PriceMonitor.calculate_wait_time`: 300 s when no market is active,
60 s under high volatility, otherwise 180 s. -/
def calculate_wait_time (marketNames : List String) : Nat :=
  if get_active_markets marketNames = [] then 300
  else if check_volatility then 60 else 180

/-- The configuration slices `PriceMonitor` reads: the keys of
`config.get_markets()` and the list `config.get_companies("us")`. -/
structure Config where
  markets : List String
  companies : List Company

/-- The outcome of one iteration of the `while True` loop of
`PriceMonitor.monitor_prices`: the state afterwards, the total number of
provider calls issued, the `asyncio.sleep` duration chosen, and the
exception caught by the `except Exception` clause, if any. -/
structure CycleResult where
  state : PriceMonitorState
  providerCalls : Nat
  sleepSeconds : Nat
  error : Option PyError
  deriving Repr, DecidableEq

/-- One iteration of `PriceMonitor.monitor_prices`: check active markets
(empty -> sleep 300 and continue), refresh previous closes, poll prices,
then sleep for `calculate_wait_time()`.  Any exception raised by the body is
caught by the `except Exception` clause, logged, and answered with a 60 s
sleep; the loop then continues — no branch of the body breaks or returns, so
the loop never terminates on a cycle error. -/
def monitor_prices_iteration (p : Provider) (cfg : Config) (today : String)
    (s : PriceMonitorState) : CycleResult :=
  if get_active_markets cfg.markets = [] then ⟨s, 0, 300, none⟩
  else
    match ensure_previous_closes p cfg.companies today s with
    | (s1, n1, some e) => ⟨s1, n1, 60, some e⟩
    | (s1, n1, none) =>
        match pollLoop p s1 cfg.companies with
        | (n2, _, some e) => ⟨s1, n1 + n2, 60, some e⟩
        | (n2, _, none) => ⟨s1, n1 + n2, calculate_wait_time cfg.markets, none⟩

/-- Modelled from the spec (§4.2): the direction-matching rule of the
ThresholdEvaluator — the sign of the percent change must match the
condition's configured direction, or the direction is "any".  The code never
implements this; the definition exists to compare claims against it. -/
def specDirectionMatches (direction : String) (percentChange : ℚ) : Bool :=
  if direction = "any" then true
  else if direction = "up" then decide (0 < percentChange)
  else if direction = "down" then decide (percentChange < 0)
  else false

/-- Modelled from the spec (§4.2): a condition triggers when
`abs(percentChange) >= thresholdPercent` and the direction matches. -/
def specConditionTriggers (c : Condition) (currentPrice referencePrice : ℚ) :
    Bool :=
  let pc := (currentPrice - referencePrice) / referencePrice * 100
  decide (|pc| ≥ c.threshold_percent) && specDirectionMatches c.direction pc

/-! ### Concrete fixtures used by counterexamples and witnesses -/

/-- A company configuration exposing one enabled condition with threshold 5
and direction "any". -/
def cfgAny : String → Option Company :=
  fun sym => if sym = "AAPL" then some ⟨"AAPL", ⟨true, [⟨5, "any"⟩]⟩⟩ else none

/-! ### Claims -/

/-- Claim C10: in `StockMonitor.process_price_updates`, a symbol's first
observation never produces an alert: with no cached entry for the symbol,
the observation is stored as the new cache entry and threshold evaluation is
skipped for that cycle. -/
theorem c10_first_observation_cached_no_alert
    (g : String → Option Company) (sym : String) (comp : Company)
    (d : PMData) (now : Int) (cache : List (String × PMData))
    (cool : List (String × Int))
    (hg : g sym = some comp)
    (henabled : comp.price_alerts.enabled = true)
    (hcache : cache.lookup sym = none) :
    process_price_updates g [(sym, d)] now ⟨cache, cool⟩ =
      (⟨dictInsert cache sym d, cool⟩, [], none) := by
  simp [process_price_updates, processLoop, processSymbolStep, hg, henabled,
    hcache]

/-- Witness for C10 at a concrete input: empty cache, one observation. -/
theorem c10_witness :
    process_price_updates cfgAny [("AAPL", ⟨100, 99⟩)] 0 ⟨[], []⟩ =
      (⟨[("AAPL", ⟨100, 99⟩)], []⟩, [], none) :=
  c10_first_observation_cached_no_alert cfgAny "AAPL" ⟨"AAPL", ⟨true, [⟨5, "any"⟩]⟩⟩
    ⟨100, 99⟩ 0 [] [] (by decide) rfl rfl

/-- A `PriceMonitor` state whose stored previous close for "AAPL" is 0. -/
def stateZeroClose : PriceMonitorState := ⟨[("AAPL", some 0)], some "2026-10-12"⟩

/-- A provider that always succeeds: current price 100, yesterday close 90. -/
def okProvider : Provider :=
  ⟨fun _ => Except.ok 100, fun _ => Except.ok (some 90)⟩

/-- Counterexample to claim C1: with a reference price of 0, evaluation
raises rather than yielding no triggers.  In `process_price_updates` a
cached `previous_close` of 0 raises `ZeroDivisionError`, and in
`poll_prices_for_companies` a stored previous close of 0 does the same: the
guard only skips a `None` reference, never a zero one. -/
theorem c1_counterexample :
    (process_price_updates cfgAny [("AAPL", ⟨100, 99⟩)] 0
        ⟨[("AAPL", ⟨50, 0⟩)], []⟩).2.2 = some PyError.zeroDivisionError ∧
    pollLoop okProvider stateZeroClose [⟨"AAPL", ⟨true, [⟨5, "any"⟩]⟩⟩] =
      (1, [], some PyError.zeroDivisionError) := by
  constructor
  · decide
  · decide

/-- Claim C1 (amended): a symbol whose cached reference price equals 0 is
not skipped — the unguarded division raises `ZeroDivisionError`, the
per-symbol loop aborts there, and no alerts are dispatched by that call;
only an absent (`None`) reference is skipped. -/
theorem c1_zero_reference_raises
    (g : String → Option Company) (sym : String) (comp : Company)
    (d cached : PMData) (now : Int) (cache : List (String × PMData))
    (cool : List (String × Int))
    (hg : g sym = some comp)
    (henabled : comp.price_alerts.enabled = true)
    (hcache : cache.lookup sym = some cached)
    (hzero : cached.previous_close = 0) :
    process_price_updates g [(sym, d)] now ⟨cache, cool⟩ =
      (⟨cache, cool⟩, [], some PyError.zeroDivisionError) := by
  simp [process_price_updates, processLoop, processSymbolStep, hg, henabled,
    hcache, hzero]

/-- Witness for the amended C1 at a concrete input. -/
theorem c1_witness :
    process_price_updates cfgAny [("AAPL", ⟨100, 99⟩)] 0
        ⟨[("AAPL", ⟨50, 0⟩)], []⟩ =
      (⟨[("AAPL", ⟨50, 0⟩)], []⟩, [], some PyError.zeroDivisionError) :=
  c1_zero_reference_raises cfgAny "AAPL" ⟨"AAPL", ⟨true, [⟨5, "any"⟩]⟩⟩
    ⟨100, 99⟩ ⟨50, 0⟩ 0 [("AAPL", ⟨50, 0⟩)] [] (by decide) rfl (by decide) rfl

/-- A provider that raises `ProviderError` on every call. -/
def failProvider : Provider :=
  ⟨fun sym => Except.error (PyError.providerError sym),
   fun sym => Except.error (PyError.providerError sym)⟩

/-- Claim C8: when the computed set of active markets is empty, the cycle
proceeds directly to waiting 300 seconds, with zero provider calls and the
monitor state untouched. -/
theorem c8_markets_closed_no_calls (p : Provider) (cfg : Config)
    (today : String) (s : PriceMonitorState)
    (hclosed : get_active_markets cfg.markets = []) :
    monitor_prices_iteration p cfg today s = ⟨s, 0, 300, none⟩ := by
  simp [monitor_prices_iteration, hclosed]

/-- Witness for C8: a configuration whose only market is not named "us". -/
theorem c8_witness :
    monitor_prices_iteration okProvider ⟨["swedish"], []⟩ "2026-10-12"
        ⟨[], none⟩ = ⟨⟨[], none⟩, 0, 300, none⟩ :=
  c8_markets_closed_no_calls okProvider ⟨["swedish"], []⟩ "2026-10-12"
    ⟨[], none⟩ (by decide)

/-- Claim C9: any exception raised inside one monitoring cycle is caught at
the loop boundary and answered with the fixed 60-second recovery sleep; the
iteration always yields a next state, so the loop never terminates on a
cycle error. -/
theorem c9_cycle_error_recovery_delay (p : Provider) (cfg : Config)
    (today : String) (s : PriceMonitorState) (e : PyError)
    (h : (monitor_prices_iteration p cfg today s).error = some e) :
    (monitor_prices_iteration p cfg today s).sleepSeconds = 60 := by
  revert h
  unfold monitor_prices_iteration
  split
  · intro h; simp at h
  · split
    · intro _; rfl
    · split
      · intro _; rfl
      · intro h; simp at h

/-- Witness for C9: a failing provider makes the cycle error out, and the
chosen sleep is 60 seconds. -/
theorem c9_witness :
    (monitor_prices_iteration failProvider
        ⟨["us"], [⟨"AAPL", ⟨true, [⟨5, "any"⟩]⟩⟩]⟩ "2026-10-12"
        ⟨[], none⟩).sleepSeconds = 60 :=
  c9_cycle_error_recovery_delay failProvider
    ⟨["us"], [⟨"AAPL", ⟨true, [⟨5, "any"⟩]⟩⟩]⟩ "2026-10-12" ⟨[], none⟩
    (PyError.providerError "AAPL") (by decide)

/-- When the stored date already equals `today`, `ensure_previous_closes`
returns immediately: state unchanged, zero provider calls. -/
theorem ensure_previous_closes_noop (p : Provider) (companies : List Company)
    (today : String) (s : PriceMonitorState)
    (h : s.previous_close_date = some today) :
    ensure_previous_closes p companies today s = (s, 0, none) := by
  simp [ensure_previous_closes, h]

/-- A refresh that completed without an exception has recorded `today` as
the stored date. -/
theorem ensure_previous_closes_success_date (p : Provider)
    (companies : List Company) (today : String) (s : PriceMonitorState)
    (h : (ensure_previous_closes p companies today s).2.2 = none) :
    (ensure_previous_closes p companies today s).1.previous_close_date =
      some today := by
  revert h
  unfold ensure_previous_closes
  split
  · intro _; assumption
  · split
    · intro h; simp at h
    · intro _; rfl

/-- Claim C7: after a refresh that completed without an exception, a second
refresh with the same `today` is a no-op — it issues zero provider calls and
leaves the cache entries and stored date unchanged. -/
theorem c7_second_refresh_noop (p : Provider) (companies : List Company)
    (today : String) (s : PriceMonitorState)
    (h : (ensure_previous_closes p companies today s).2.2 = none) :
    ensure_previous_closes p companies today
        (ensure_previous_closes p companies today s).1 =
      ((ensure_previous_closes p companies today s).1, 0, none) :=
  ensure_previous_closes_noop p companies today _
    (ensure_previous_closes_success_date p companies today s h)

/-- Witness for C7: one successful refresh from an empty cache, then the
second call with the same date changes nothing and makes zero calls. -/
theorem c7_witness :
    ensure_previous_closes okProvider [⟨"AAPL", ⟨true, [⟨5, "any"⟩]⟩⟩]
        "2026-10-12"
        (ensure_previous_closes okProvider [⟨"AAPL", ⟨true, [⟨5, "any"⟩]⟩⟩]
          "2026-10-12" ⟨[], none⟩).1 =
      ((ensure_previous_closes okProvider [⟨"AAPL", ⟨true, [⟨5, "any"⟩]⟩⟩]
          "2026-10-12" ⟨[], none⟩).1, 0, none) :=
  c7_second_refresh_noop okProvider [⟨"AAPL", ⟨true, [⟨5, "any"⟩]⟩⟩]
    "2026-10-12" ⟨[], none⟩ (by decide)

/-- Counterexample to claim C2: a provider failure on the first of two
symbols aborts the whole polling pass — only one provider call is issued, so
the second symbol is not fetched, evaluated, or alerted in that cycle.  The
same holds for the reference refresh. -/
theorem c2_counterexample :
    pollLoop (Provider.mk
        (fun sym => if sym = "AAPL" then Except.error (PyError.providerError "AAPL")
          else Except.ok 100)
        (fun _ => Except.ok (some 90)))
      ⟨[("AAPL", some 90), ("MSFT", some 90)], some "2026-10-12"⟩
      [⟨"AAPL", ⟨true, [⟨5, "any"⟩]⟩⟩, ⟨"MSFT", ⟨true, [⟨5, "any"⟩]⟩⟩] =
      (1, [], some (PyError.providerError "AAPL")) := by
  decide

/-- Claim C2 (amended): a provider failure for one symbol is not contained —
the exception propagates, aborting the rest of that phase: in the polling
pass no later symbol is fetched, and in the reference refresh no later
symbol is refreshed; the state already written is kept and the error is
only caught at the loop boundary. -/
theorem c2_failure_aborts_remaining :
    (∀ (p : Provider) (s : PriceMonitorState) (c : Company)
        (rest : List Company) (e : PyError),
        p.get_current_trading_price c.symbol = Except.error e →
        pollLoop p s (c :: rest) = (1, [], some e)) ∧
    (∀ (p : Provider) (s : PriceMonitorState) (c : Company)
        (rest : List Company) (e : PyError),
        p.get_yesterday_close c.symbol = Except.error e →
        ensureLoop p (c :: rest) s = (s, 1, some e)) := by
  constructor
  · intro p s c rest e h
    simp [pollLoop, h]
  · intro p s c rest e h
    simp [ensureLoop, h]

/-- Witness for the amended C2: with the failing provider, polling two
companies stops after the first call. -/
theorem c2_witness :
    pollLoop failProvider ⟨[("AAPL", some 90)], none⟩
        [⟨"AAPL", ⟨true, [⟨5, "any"⟩]⟩⟩, ⟨"MSFT", ⟨true, [⟨5, "any"⟩]⟩⟩] =
      (1, [], some (PyError.providerError "AAPL")) :=
  c2_failure_aborts_remaining.1 failProvider ⟨[("AAPL", some 90)], none⟩
    ⟨"AAPL", ⟨true, [⟨5, "any"⟩]⟩⟩ [⟨"MSFT", ⟨true, [⟨5, "any"⟩]⟩⟩]
    (PyError.providerError "AAPL") rfl

/-- A company entry for the symbol "AAPL" with one enabled condition,
threshold 5, direction "any". -/
def compAAPL : Company := ⟨"AAPL", ⟨true, [⟨5, "any"⟩]⟩⟩

/-- If every current-price fetch succeeds, no stored reference equals 0, and
some company has a present stored reference, the polling pass necessarily
reaches the `self.check_alerts(...)` call — a method `PriceMonitor` does not
define — and ends with `AttributeError`. -/
theorem pollLoop_reaches_missing_check_alerts (p : Provider)
    (s : PriceMonitorState) :
    ∀ cs : List Company,
    (∀ c ∈ cs, ∃ q, p.get_current_trading_price c.symbol = Except.ok q) →
    (∀ c ∈ cs, dictGetClose s.previous_closes c.symbol ≠ some 0) →
    (∃ c ∈ cs, (dictGetClose s.previous_closes c.symbol).isSome) →
    (pollLoop p s cs).2.2 = some (PyError.attributeError "check_alerts") := by
  intro cs
  induction cs with
  | nil => intro _ _ hsome; simp at hsome
  | cons c rest ih =>
      intro hfetch hnz hsome
      obtain ⟨q, hq⟩ := hfetch c (List.mem_cons_self c rest)
      cases hd : dictGetClose s.previous_closes c.symbol with
      | some prev =>
          have hp0 : prev ≠ 0 := by
            intro h0
            exact hnz c (List.mem_cons_self c rest) (by rw [hd, h0])
          simp [pollLoop, hq, hd, hp0]
      | none =>
          have hex : ∃ c2 ∈ rest,
              (dictGetClose s.previous_closes c2.symbol).isSome := by
            obtain ⟨c0, hc0, hsome0⟩ := hsome
            rcases List.mem_cons.mp hc0 with heq | hmem
            · subst heq; rw [hd] at hsome0; simp at hsome0
            · exact ⟨c0, hmem, hsome0⟩
          have hrec := ih (fun c2 hc2 => hfetch c2 (List.mem_cons_of_mem c hc2))
            (fun c2 hc2 => hnz c2 (List.mem_cons_of_mem c hc2)) hex
          simp [pollLoop, hq, hd, hrec]

/-- Claim C3: in the wired loop (`main` → `StockManagerUS.run` →
`PriceMonitor.monitor_prices`), whenever some monitored symbol has a current
price and a present cached reference, the per-symbol step calls
`self.check_alerts` — undefined on `PriceMonitor` — so the cycle ends in the
error branch (`AttributeError`, 60-second recovery sleep) and no alert is
dispatched through this path. -/
theorem c3_check_alerts_undefined (p : Provider) (cfg : Config)
    (today : String) (s : PriceMonitorState)
    (hmkt : "us" ∈ cfg.markets)
    (hdate : s.previous_close_date = some today)
    (hfetch : ∀ c ∈ cfg.companies,
      ∃ q, p.get_current_trading_price c.symbol = Except.ok q)
    (hnz : ∀ c ∈ cfg.companies,
      dictGetClose s.previous_closes c.symbol ≠ some 0)
    (hsome : ∃ c ∈ cfg.companies,
      (dictGetClose s.previous_closes c.symbol).isSome) :
    (monitor_prices_iteration p cfg today s).error =
        some (PyError.attributeError "check_alerts") ∧
    (monitor_prices_iteration p cfg today s).sleepSeconds = 60 := by
  have hmem : "us" ∈ get_active_markets cfg.markets := by
    unfold get_active_markets
    exact List.mem_filter.mpr ⟨hmkt, by simp⟩
  have hactive := List.ne_nil_of_mem hmem
  have hens := ensure_previous_closes_noop p cfg.companies today s hdate
  have hpoll :=
    pollLoop_reaches_missing_check_alerts p s cfg.companies hfetch hnz hsome
  rcases hr2 : pollLoop p s cfg.companies with ⟨n2, printed, err⟩
  rw [hr2] at hpoll
  simp only at hpoll
  subst hpoll
  unfold monitor_prices_iteration
  rw [if_neg hactive, hens]
  simp [hr2]

/-- Witness for C3 at a concrete configuration: one company with a stored
nonzero reference; the cycle errors with the missing `check_alerts`. -/
theorem c3_witness :
    (monitor_prices_iteration okProvider ⟨["us"], [compAAPL]⟩ "2026-10-12"
        ⟨[("AAPL", some 90)], some "2026-10-12"⟩).error =
        some (PyError.attributeError "check_alerts") ∧
    (monitor_prices_iteration okProvider ⟨["us"], [compAAPL]⟩ "2026-10-12"
        ⟨[("AAPL", some 90)], some "2026-10-12"⟩).sleepSeconds = 60 :=
  c3_check_alerts_undefined okProvider ⟨["us"], [compAAPL]⟩ "2026-10-12"
    ⟨[("AAPL", some 90)], some "2026-10-12"⟩ (by decide) rfl
    (fun _ _ => ⟨100, rfl⟩) (by decide) ⟨compAAPL, by decide, by decide⟩

/-- A configuration exposing one symbol with the given condition list
(enabled). -/
def mkCompanyCfg (sym : String) (conds : List Condition) :
    String → Option Company :=
  fun x => if x = sym then some ⟨sym, ⟨true, conds⟩⟩ else none

/-- Counterexample to claim C4: a condition configured with direction "up"
and threshold 5, a cached reference of 100 and a current price of 90 — the
percent change is −10, whose sign does not match "up", yet the code raises
an alert: direction is never consulted. -/
theorem c4_counterexample :
    (process_price_updates (mkCompanyCfg "AAPL" [⟨5, "up"⟩])
        [("AAPL", ⟨90, 95⟩)] 0 ⟨[("AAPL", ⟨100, 100⟩)], []⟩).2.1 =
      [⟨"AAPL", -10⟩] ∧
    specConditionTriggers ⟨5, "up"⟩ 90 100 = false := by
  constructor
  · norm_num [process_price_updates, processLoop, processSymbolStep,
      mkCompanyCfg, List.lookup, should_send_alert, set_alert_cooldown,
      dictInsert]
  · norm_num [specConditionTriggers, specDirectionMatches]
    decide

/-- Claim C4 (amended): for `referencePrice > 0`, the (first configured)
condition triggers iff
`abs((currentPrice - referencePrice) / referencePrice * 100) >=
thresholdPercent` — the configured direction plays no role. -/
theorem c4_trigger_iff_abs_threshold (g : String → Option Company)
    (sym : String) (comp : Company) (cond : Condition)
    (rest : List Condition) (d cached : PMData) (now : Int)
    (hg : g sym = some comp)
    (hen : comp.price_alerts.enabled = true)
    (hconds : comp.price_alerts.conditions = cond :: rest)
    (hpos : 0 < cached.previous_close) :
    (process_price_updates g [(sym, d)] now ⟨[(sym, cached)], []⟩).2.1 ≠ []
      ↔ |(d.price - cached.previous_close) / cached.previous_close * 100| ≥
          cond.threshold_percent := by
  have hnz : cached.previous_close ≠ 0 := ne_of_gt hpos
  by_cases habs : |(d.price - cached.previous_close) / cached.previous_close
      * 100| ≥ cond.threshold_percent
  · simp [process_price_updates, processLoop, processSymbolStep, hg, hen,
      hconds, hnz, should_send_alert, habs, List.lookup]
  · simp [process_price_updates, processLoop, processSymbolStep, hg, hen,
      hconds, hnz, should_send_alert, habs, List.lookup]

/-- Witness for the amended C4: current 90, reference 100, threshold 5 — one
alert is produced and the abs-threshold test holds. -/
theorem c4_witness :
    ((process_price_updates (mkCompanyCfg "AAPL" [⟨5, "up"⟩])
        [("AAPL", ⟨90, 95⟩)] 0 ⟨[("AAPL", ⟨100, 100⟩)], []⟩).2.1 ≠ []
      ↔ |((90 : ℚ) - 100) / 100 * 100| ≥ 5) :=
  c4_trigger_iff_abs_threshold (mkCompanyCfg "AAPL" [⟨5, "up"⟩]) "AAPL"
    ⟨"AAPL", ⟨true, [⟨5, "up"⟩]⟩⟩ ⟨5, "up"⟩ [] ⟨90, 95⟩ ⟨100, 100⟩ 0
    (by decide) rfl rfl (by decide)

/-- The cooldown state after an alert for `XYZ:price` recorded at t = 0. -/
def xyzCooldownState : SMState := ⟨[], [("XYZ:price", 0)]⟩

/-- Counterexample to claim C5: 86900 seconds after the recorded send —
far more than the 900-second cooldown — `should_send_alert` still returns
false, because `timedelta.seconds` keeps only the sub-day component
(86900 mod 86400 = 500 ≤ 900). -/
theorem c5_counterexample :
    should_send_alert xyzCooldownState "XYZ" "price" 86900 = false ∧
    (86900 : Int) - 0 > 900 := by
  constructor
  · decide
  · decide

/-- Claim C5 (amended): `should_send_alert` returns true iff no send is
recorded for (symbol, kind) or `(now - lastSent) mod 86400` strictly exceeds
the kind's cooldown (900 s for "price", 1800 s otherwise) — the whole-day
part of the elapsed time is discarded.  The scenario parts that survive:
false at t = 500 s and true at t = 901 s after a send at t = 0. -/
theorem c5_should_send_mod_day :
    (∀ (s : SMState) (symbol kind : String) (now : Int),
      should_send_alert s symbol kind now = true ↔
        (s.alert_cooldown.lookup (symbol ++ ":" ++ kind) = none ∨
         ∃ last, s.alert_cooldown.lookup (symbol ++ ":" ++ kind) = some last ∧
           (now - last) % 86400 >
             (if kind = "price" then (900 : Int) else 1800))) ∧
    should_send_alert xyzCooldownState "XYZ" "price" 500 = false ∧
    should_send_alert xyzCooldownState "XYZ" "price" 901 = true := by
  refine ⟨?_, by decide, by decide⟩
  intro s symbol kind now
  unfold should_send_alert
  cases h : s.alert_cooldown.lookup (symbol ++ ":" ++ kind) with
  | none => simp [h]
  | some last => simp [h]

/-- Counterexample to claim C6: two configured conditions, thresholds 50 and
1, and a +10% move — the second condition is satisfied, but the code reads
only `conditions[0]` and produces no alert at all. -/
theorem c6_counterexample :
    (process_price_updates (mkCompanyCfg "AAPL" [⟨50, "any"⟩, ⟨1, "any"⟩])
        [("AAPL", ⟨110, 105⟩)] 0 ⟨[("AAPL", ⟨100, 100⟩)], []⟩).2.1 = [] ∧
    specConditionTriggers ⟨1, "any"⟩ 110 100 = true := by
  constructor
  · norm_num [process_price_updates, processLoop, processSymbolStep,
      mkCompanyCfg, List.lookup, should_send_alert, set_alert_cooldown,
      dictInsert]
  · norm_num [specConditionTriggers, specDirectionMatches]

/-- Claim C6 (amended): only the first configured condition is consulted —
the outcome of `process_price_updates` is unchanged by the conditions after
the first, and a symbol produces at most one alert per cycle. -/
theorem c6_only_first_condition (sym : String) (cond : Condition)
    (rest rest2 : List Condition) (d cached : PMData) (now : Int)
    (cool : List (String × Int)) :
    process_price_updates (mkCompanyCfg sym (cond :: rest)) [(sym, d)] now
        ⟨[(sym, cached)], cool⟩ =
      process_price_updates (mkCompanyCfg sym (cond :: rest2)) [(sym, d)] now
        ⟨[(sym, cached)], cool⟩ ∧
    (process_price_updates (mkCompanyCfg sym (cond :: rest)) [(sym, d)] now
        ⟨[(sym, cached)], cool⟩).2.1.length ≤ 1 := by
  constructor
  · simp [process_price_updates, processLoop, processSymbolStep, mkCompanyCfg,
      List.lookup]
  · simp [process_price_updates, processLoop, processSymbolStep, mkCompanyCfg,
      List.lookup]
    split_ifs <;> simp

end StockMonitoring
